import Mathlib

/-!
Shallow embedding of the AI-provider fallback orchestration layer of
`server/services/aiProvider.ts` (AILatexGenerator_ANDROID), together with
theorems checking the specification's claims about it.

Strings are modelled as `List Char` (`Str`).  JavaScript regular-expression
matching in the source is limited to a handful of fixed patterns whose
leftmost-match semantics reduce to first-substring searches; the embedding
implements those searches directly and the reductions are argued in the
comments at each definition.
-/

namespace AiProvider

set_option maxRecDepth 1000000

/-- Character strings of the embedded program. -/
abbrev Str := List Char

/-- Coerce a Lean string literal to the embedded string type. -/
def str (s : String) : Str := s.data

/-- JavaScript whitespace class (the set matched by a regex whitespace
class and used by trim): tab, LF, VT, FF, CR, space, NBSP, and the
Unicode space separators, line/paragraph separators and BOM. -/
def isJsWs (c : Char) : Bool :=
  c == ' ' || c == '\t' || c == '\n' || c == '\r' || c == '\x0b' || c == '\x0c' ||
  c == '\u00a0' || c == '\u1680' || (0x2000 ≤ c.toNat && c.toNat ≤ 0x200a) ||
  c == '\u2028' || c == '\u2029' || c == '\u202f' || c == '\u205f' ||
  c == '\u3000' || c == '\ufeff'

/-- JavaScript `String.prototype.trim`: strip leading and trailing whitespace. -/
def trim (s : Str) : Str :=
  ((s.dropWhile isJsWs).reverse.dropWhile isJsWs).reverse

/-- Index of the first occurrence of `pat` in `s` (JavaScript `indexOf`),
`none` when `pat` does not occur. -/
def findSub? (pat : Str) : Str → Option Nat
  | [] => if pat.isPrefixOf ([] : Str) then some 0 else none
  | c :: t => if pat.isPrefixOf (c :: t) then some 0 else (findSub? pat t).map (· + 1)

/-- JavaScript `String.prototype.includes`. -/
def containsSub (s pat : Str) : Bool := (findSub? pat s).isSome

/-- JavaScript `toLowerCase` (the characters this program lowercases are ASCII). -/
def toLowerStr (s : Str) : Str := s.map Char.toLower

/-- JavaScript `String.prototype.replace` with a non-global fixed pattern and a
replacement free of dollar sequences: replace the first occurrence only. -/
def replaceFirst (s pat repl : Str) : Str :=
  match findSub? pat s with
  | some i => s.take i ++ repl ++ s.drop (i + pat.length)
  | none => s

/-- Number of maximal whitespace runs in `s` (`b` records whether the scan is
currently inside a run). -/
def wsRuns (b : Bool) : Str → Nat
  | [] => 0
  | c :: t =>
    if isJsWs c then (if b then wsRuns true t else 1 + wsRuns true t)
    else wsRuns false t

/-- Length of the array produced by a JavaScript whitespace split of `s`
(the word count used by the Groq token estimate): one more than the number
of separator runs; a leading or trailing run contributes an empty segment,
exactly as in the source. -/
def splitWsLen (s : Str) : Nat := wsRuns false s + 1

/-- `Math.ceil(words * 1.3)` of the source, embedded as the exact rational
ceiling of `13 * words / 10`.  (The source computes this with binary floating
point, which can exceed the exact value by one for some word counts; every
property proved below is independent of that difference.) -/
def estTokens13 (words : Nat) : Nat := (13 * words + 9) / 10

/-! ### Response extractor (`extractLatexFromResponse`)

The source tries four regular expressions in order.  Each is a fixed pattern
whose leftmost-match semantics reduce to `indexOf` searches:

* for a block pattern (opening marker, lazy body, closing marker) a match
  exists iff the first occurrence of the opening marker is followed by an
  occurrence of the closing marker, and the lazy body is the text strictly
  between the opening marker and the first closing marker after it;
* the captured group of the fenced-block patterns excludes the whitespace
  bracketing the body, so the group is empty (and the source's truthiness
  test on it fails) exactly when the trimmed body is empty.
-/

def ticks : Str := str "```"
def ticksLatex : Str := str "```latex"
def dclsTag : Str := str "\\documentclass"
def endDocTag : Str := str "\\end\x7bdocument\x7d"

/-- Steps 3 to 5 of the extractor: the span from the first `\documentclass`
to the first `\end of document` marker after it; else everything from the
first `\documentclass`; else the whole trimmed response. -/
def extractDocPart (r : Str) : Str :=
  match findSub? dclsTag r with
  | some i =>
    match findSub? endDocTag (r.drop (i + 14)) with
    | some j => trim ((r.drop i).take (14 + j + 14))
    | none => trim (r.drop i)
  | none => trim r

/-- Step 2 of the extractor: the first fenced block with any (or no) tag. -/
def extractFencePart (r : Str) : Str :=
  match findSub? ticks r with
  | some i =>
    match findSub? ticks (r.drop (i + 3)) with
    | some j =>
      let g := trim ((r.drop (i + 3)).take j)
      if g.isEmpty then extractDocPart r else g
    | none => extractDocPart r
  | none => extractDocPart r

/-- `extractLatexFromResponse` of the source: first a fenced block tagged
`latex`, then any fenced block, then the `\documentclass` fallbacks.  A block
whose trimmed contents are empty fails the source's truthiness test on the
captured group and falls through to the next step. -/
def extractLatexFromResponse (r : Str) : Str :=
  match findSub? ticksLatex r with
  | some i =>
    match findSub? ticks (r.drop (i + 8)) with
    | some j =>
      let g := trim ((r.drop (i + 8)).take j)
      if g.isEmpty then extractFencePart r else g
    | none => extractFencePart r
  | none => extractFencePart r

/-! Spec-side extractor definitions for claim C1.  `extractLatexClaimed`
follows the claim's words exactly; `extractLatexAmendedSpec` follows the
amended claim. -/

/-- Trimmed contents of the first fenced block tagged `latex`, if one exists. -/
def taggedFenceContent? (r : Str) : Option Str :=
  (findSub? ticksLatex r).bind fun i =>
    (findSub? ticks (r.drop (i + 8))).map fun j => trim ((r.drop (i + 8)).take j)

/-- Trimmed contents of the first fenced block, if one exists. -/
def fenceContent? (r : Str) : Option Str :=
  (findSub? ticks r).bind fun i =>
    (findSub? ticks (r.drop (i + 3))).map fun j => trim ((r.drop (i + 3)).take j)

/-- The span from the first `\documentclass` to the first following
`\end of document` marker, if both exist in that order. -/
def docSpan? (r : Str) : Option Str :=
  (findSub? dclsTag r).bind fun i =>
    (findSub? endDocTag (r.drop (i + 14))).map fun j => trim ((r.drop i).take (14 + j + 14))

/-- Everything from the first `\documentclass` to the end, if it occurs. -/
def docTail? (r : Str) : Option Str :=
  (findSub? dclsTag r).map fun i => trim (r.drop i)

/-- Claim C1's rules (3)-(5) as written: rule (4) demands that the
`\end of document` marker occurs nowhere in the text at all. -/
def extractClaimedDoc (r : Str) : Str :=
  match docSpan? r with
  | some s => s
  | none =>
    match docTail? r with
    | some t => if containsSub r endDocTag then trim r else t
    | none => trim r

/-- The extractor exactly as claim C1 states it: rules (1) and (2) return the
trimmed contents of the block unconditionally whenever the block exists. -/
def extractLatexClaimed (r : Str) : Str :=
  match taggedFenceContent? r with
  | some g => g
  | none =>
    match fenceContent? r with
    | some g => g
    | none => extractClaimedDoc r

/-- First entry of the list that is present with nonempty contents, else the
default. -/
def firstNonempty (dflt : Str) : List (Option Str) → Str
  | [] => dflt
  | some g :: rest => if g.isEmpty then firstNonempty dflt rest else g
  | none :: rest => firstNonempty dflt rest

/-- The amended claim C1: as claimed, except that a fenced block whose trimmed
contents are empty falls through to the next rule, and rule (4) applies
whenever `\documentclass` occurs with no `\end of document` marker after it. -/
def extractLatexAmendedSpec (r : Str) : Str :=
  firstNonempty
    (match docSpan? r with
     | some s => s
     | none =>
       match docTail? r with
       | some t => t
       | none => trim r)
    [taggedFenceContent? r, fenceContent? r]

theorem extractDocPart_eq (r : Str) :
    extractDocPart r =
      (match docSpan? r with
       | some s => s
       | none =>
         match docTail? r with
         | some t => t
         | none => trim r) := by
  unfold extractDocPart docSpan? docTail?
  cases h1 : findSub? dclsTag r with
  | none => simp
  | some i =>
    cases h2 : findSub? endDocTag (r.drop (i + 14)) <;> simp [h2]

theorem extract_eq_amended (r : Str) :
    extractLatexFromResponse r = extractLatexAmendedSpec r := by
  unfold extractLatexFromResponse extractLatexAmendedSpec extractFencePart
    taggedFenceContent? fenceContent?
  cases h1 : findSub? ticksLatex r with
  | none =>
    cases h2 : findSub? ticks r with
    | none => simp [firstNonempty, h2, extractDocPart_eq]
    | some i =>
      cases h3 : findSub? ticks (r.drop (i + 3)) with
      | none => simp [firstNonempty, h3, extractDocPart_eq]
      | some j => simp [firstNonempty, h3, extractDocPart_eq]
  | some i =>
    cases h2 : findSub? ticks (r.drop (i + 8)) with
    | none =>
      cases h3 : findSub? ticks r with
      | none => simp [firstNonempty, h2, h3, extractDocPart_eq]
      | some k =>
        cases h4 : findSub? ticks (r.drop (k + 3)) with
        | none => simp [firstNonempty, h2, h3, h4, extractDocPart_eq]
        | some j => simp [firstNonempty, h2, h3, h4, extractDocPart_eq]
    | some j =>
      by_cases hg : (trim ((r.drop (i + 8)).take j)).isEmpty
      · simp only [h2, hg, if_true, Option.map_some, Option.bind_some]
        cases h3 : findSub? ticks r with
        | none => simp [firstNonempty, h2, h3, hg, extractDocPart_eq]
        | some k =>
          cases h4 : findSub? ticks (r.drop (k + 3)) with
          | none => simp [firstNonempty, h2, h3, h4, hg, extractDocPart_eq]
          | some j2 => simp [firstNonempty, h2, h3, h4, hg, extractDocPart_eq]
      · simp [firstNonempty, h2, hg, extractDocPart_eq]


/-- C1: the response extractor follows the claimed five-rule priority order.
As stated the claim fails: a `latex`-tagged fenced block with all-whitespace
contents does not return its (empty) trimmed contents; the source's
truthiness test on the captured group falls through to the untagged-block
rule, which then captures the word `latex` itself.  Amended claim: rules (1)
and (2) apply only when the block's trimmed contents are nonempty, and rule
(4) applies whenever `\documentclass` occurs with no `\end` of document
marker after it; the concrete example of the claim is unchanged. -/
theorem extract_latex_response_amended :
    (∀ r, extractLatexFromResponse r = extractLatexAmendedSpec r) ∧
    extractLatexFromResponse (str "prefix ```latex\nFOO\n``` suffix") = str "FOO" :=
  ⟨extract_eq_amended, by decide⟩

/-- C1 (counterexample): on the input consisting of a `latex`-tagged fenced
block with empty contents, the claimed rules return the empty string but the
source extractor returns the word `latex`. -/
theorem extract_latex_response_counterexample :
    extractLatexClaimed (str "```latex\n```") = str "" ∧
    extractLatexFromResponse (str "```latex\n```") = str "latex" ∧
    extractLatexFromResponse (str "```latex\n```") ≠ extractLatexClaimed (str "```latex\n```") :=
  ⟨by decide, by decide, by decide⟩

/-- The backslash character, counted by the LaTeX-density heuristic. -/
def backslashChar : Char := '\\'

/-! ### Data model

Runtime provider state, request environment and run outputs.  The source
keeps provider state in the module-global `providerStatus` object and the
Groq token counter on the Groq provider object; the embedding threads both
through every call as a `SysState`.  External effects (credential presence
at process start, the outbound HTTP calls) are captured by an `Env`
parameter, and the fire-and-forget `setTimeout` reset of a rate-limit flag
is captured as an explicit `Timer` event list in the run output. -/

/-- The seven providers tracked by the source's `providerStatus` map, in its
declaration order. -/
inductive Provider where
  | openai
  | anthropic
  | groq
  | together
  | huggingface
  | fireworks
  | openrouter
deriving DecidableEq

/-- An error thrown by a provider call: optional HTTP response status and the
error message. -/
structure ErrInfo where
  status : Option Nat
  msg : Str
deriving DecidableEq

/-- Outcome of one outbound HTTP call: the raw completion text together with
the usage reported by the backend, or a thrown error. -/
inductive CallOutcome where
  | ok (text : Str) (usage : Option Nat)
  | err (e : ErrInfo)
deriving DecidableEq

def CallOutcome.isOk : CallOutcome → Bool
  | .ok _ _ => true
  | .err _ => false

/-- The process environment: which provider credentials are present at
process start, what each outbound HTTP call (provider, model, prompt)
returns, and the word count of the system prompt. -/
structure Env where
  cred : Provider → Bool
  call : Provider → Str → Str → CallOutcome
  sysPromptWords : Nat

/-- Modelled from the spec: `LATEX_SYSTEM_PROMPT` is imported from
`server/utils/prompts`, a file absent from the sources.  Per the spec the
estimate includes "a fixed allowance for the system prompt" of about 1.3
tokens per word, so only the prompt's whitespace-split word count matters;
it is carried as the abstract environment parameter `Env.sysPromptWords`. -/
def systemPromptTokens (env : Env) : Nat := estTokens13 env.sysPromptWords

/-- One entry of the source's `providerStatus` map. -/
structure ProvState where
  available : Bool
  rateLimited : Bool
  lastError : Option ErrInfo
deriving DecidableEq

/-- Whole mutable runtime state: the `providerStatus` map plus the Groq
provider's cumulative `totalTokensUsed` counter. -/
structure SysState where
  status : Provider → ProvState
  groqTokens : Nat

/-- A scheduled `setTimeout` that will clear `rateLimited` for `provider`
after `delayMs` milliseconds. -/
structure Timer where
  provider : Provider
  delayMs : Nat
deriving DecidableEq

/-- Record of one outbound HTTP call actually issued. -/
structure NetCall where
  provider : Provider
  model : Str
  prompt : Str
deriving DecidableEq

/-- The structured result returned to the caller. -/
structure GenResult where
  success : Bool
  latex : Option Str
  error : Option Str
deriving DecidableEq

/-- Result of invoking one provider adapter: the returned text or thrown
error, the state after the call, and the network calls it issued. -/
structure AdapterOut where
  outcome : Except ErrInfo Str
  state : SysState
  netCalls : List NetCall

/-- Output of a whole orchestrator run: result, final state, scheduled
timers, the providers whose adapters were invoked (in order), and the
network calls issued. -/
structure RunOut where
  result : GenResult
  state : SysState
  timers : List Timer
  adapterCalls : List Provider
  netCalls : List NetCall

/-- The options bag of `generateLatex` and `modifyLatex`. -/
structure Options where
  model : Option Str
  splitTables : Option Bool
  useMath : Option Bool

def noOptions : Options := ⟨none, none, none⟩

/-- Result of `preparePrompt`: either a direct pre-formatted response that
bypasses the providers, or the prompt string to send. -/
inductive PromptResult where
  | bypassed (directResponse : Str)
  | prompt (p : Str)
deriving DecidableEq

/-! ### Prompt preparation -/

def CREDIT_CARD_VALIDATION_PROMPT : Str := str "Create a LaTeX document for Week 5 Random Testing assignment on credit card validation bugs. Format it with article class, 1-inch margins, and no page numbers. Structure it with sections for each of the 8 bugs, showing 5 triggering credit card numbers and a theory for each bug that includes prefix, length, check-digit status, and other explanations.\nFor Bug 1, use these numbers:\n887976483324347\n695746924442263\n778534306528554\n775529465869638\n955456996340271\nTheory: Valid prefixes, legal length (15/16), valid Luhn check, crashes on account ending with pattern \x27...63\x27\nFor Bug 2, use these numbers:\n4045667666731919\n4046342899267946\n4042429538262398\n4046168398241698\n4042429538262398\nTheory: Visa BINs with second digit=0, length 16, valid/invalid check digits, wrong routing to MasterCard table\nFor Bug 3, use these numbers:\n4393518618431357\n4059888113383579\n2465237829623579\n4656334811331357\n2465237829623579\nTheory: Legal Visa prefix but any issuer, length 16, Luhn-invalid, checksum loop underflows\nFor Bug 4, use these numbers:\n784694521024178\n345760093040934\n379740536456737\n349309053418834\n375425556798037\nTheory: AmEx-style prefix or Visa-length with first digit 3, length 15/16, valid check digit, off-by-one error when first digit is 3 and check digit mod 3 == 2\nFor Bug 5, use numbers with Visa BIN 459x prefix and valid check digits.\nFor Bug 6, use AmEx prefixes (34/37) with length 15 and valid check digits.\nFor Bug 7, use non-standard length numbers (both too short and too long).\nFor Bug 8, use MasterCard prefixes (51-55), length 16, invalid Luhn check digits.\nFormat each section consistently with \x27Triggering numbers\x27 followed by the list of numbers, then \x27Theory\x27 with the four aspects clearly labeled."

def FORMATTED_CREDIT_CARD_LATEX : Str := str "\\documentclass\x7barticle\x7d\n\\usepackage\x7bgeometry\x7d\n\\geometry\x7bmargin=1in\x7d\n\\begin\x7bdocument\x7d\n\n\\section*\x7bWeek 5 – Random Testing (Hands On)\x7d\n\nFor each bug: five triggering numbers, then a concise theory.\n\n\\bigskip\n\n\\subsection*\x7bBug 1\x7d\n\n\\textbf\x7bTriggering numbers\x7d\\\\\n887976483324347\\\\\n695746924442263\\\\\n778534306528554\\\\\n775529465869638\\\\\n955456996340271\n\n\\textbf\x7bTheory\x7d\\\\\nPrefix: legal Visa/MasterCard/AmEx prefixes\\\\\nLength: legal (15 or 16)\\\\\nCheck‑digit: \\emph\x7bvalid\x7d Luhn\\\\\nOther: implementation crashes whenever the randomly‑generated account portion ends with the repeated pattern \\texttt\x7b…63\x7d.\n\n\\bigskip\n\n\\subsection*\x7bBug 2\x7d\n\n\\textbf\x7bTriggering numbers\x7d\\\\\n4045667666731919\\\\\n4046342899267946\\\\\n4042429538262398\\\\\n4046168398241698\\\\\n4042429538262398\n\n\\textbf\x7bTheory\x7d\\\\\nPrefix: any \\textbf\x7bVisa BIN whose second digit = 0\x7d (i.e.\\ \\texttt\x7b40xx…\x7d)\\\\\nLength: 16\\\\\nCheck‑digit: valid or invalid (both trigger)\\\\\nOther: the validator mistakenly routes \\texttt\x7b40xx\x7d prefixes through the MasterCard prefix table, causing an out‑of‑range lookup and crash.\n\n\\bigskip\n\n\\subsection*\x7bBug 3\x7d\n\n\\textbf\x7bTriggering numbers\x7d\\\\\n4393518618431357\\\\\n4059888113383579\\\\\n2465237829623579\\\\\n4656334811331357\\\\\n2465237829623579\n\n\\textbf\x7bTheory\x7d\\\\\nPrefix: legal Visa (4\\*) but could be any issuer\\\\\nLength: 16\\\\\nCheck‑digit: \\textbf\x7bLuhn‑\\emph\x7binvalid\x7d\x7d\\\\\nOther: checksum loop underflows an index when processing any card that fails the Luhn test, raising an exception.\n\n\\bigskip\n\n\\subsection*\x7bBug 4\x7d\n\n\\textbf\x7bTriggering numbers\x7d\\\\\n784694521024178\\\\\n345760093040934\\\\\n379740536456737\\\\\n349309053418834\\\\\n375425556798037\n\n\\textbf\x7bTheory\x7d\\\\\nPrefix: any AmEx‐style prefix (34/37) \\emph\x7bor\x7d Visa‑length number starting with 3\\\\\nLength: 15 or 16\\\\\nCheck‑digit: valid\\\\\nOther: off‑by‑one in prefix comparison when the first digit is 3 and the check digit mod 3 == 2.\n\n\\bigskip\n\n\\subsection*\x7bBug 5\x7d\n\n\\textbf\x7bTriggering numbers\x7d\\\\\n4597886573466094\\\\\n4591342890123452\\\\\n4596723456789016\\\\\n4592011122233348\\\\\n4599654321876541\n\n\\textbf\x7bTheory\x7d\\\\\nPrefix: \\textbf\x7bVisa BIN 459x\x7d (4 5 9 *)\\\\\nLength: 16\\\\\nCheck‑digit: valid\\\\\nOther: 459x prefixes collide with a partial MasterCard range (51–55) in the code\x27s prefix table, causing it to follow the wrong branch and crash.\n\n\\bigskip\n\n\\subsection*\x7bBug 6\x7d\n\n\\textbf\x7bTriggering numbers\x7d\\\\\n371522678158258\\\\\n4754976547953258\\\\\n371449635398431\\\\\n371193694241249\\\\\n372896345612345\n\n\\textbf\x7bTheory\x7d\\\\\nPrefix: any AmEx (34/37)\\\\\nLength: 15\\\\\nCheck‑digit: valid\\\\\nOther: integer division by zero in expiry‐year check when the sum of even‑indexed digits \\% 11 == 0.\n\n\\bigskip\n\n\\subsection*\x7bBug 7\x7d\n\n\\textbf\x7bTriggering numbers\x7d\\\\\n257319860974700477\\\\\n2368694929\\\\\n416048744390397870\\\\\n2632989469\\\\\n4409693662\n\n\\textbf\x7bTheory\x7d\\\\\nPrefix: unrestricted\\\\\nLength: \\emph\x7bnon‑standard\x7d (< 10 or > 19)\\\\\nCheck‑digit: n/a\\\\\nOther: length guard uses \\texttt\x7bassert\x7d instead of an \\texttt\x7bif\x7d; assertion disabled in production, so the subsequent slice op crashes for irregular lengths.\n\n\\bigskip\n\n\\subsection*\x7bBug 8\x7d\n\n\\textbf\x7bTriggering numbers\x7d\\\\\n2446768668658433\\\\\n2565258008565189\\\\\n3444749339485483\\\\\n2555678901234560\\\\\n2499988776655443\n\n\\textbf\x7bTheory\x7d\\\\\nPrefix: legal MasterCard (51–55)\\\\\nLength: 16\\\\\nCheck‑digit: \\emph\x7binvalid\x7d (fails Luhn)\\\\\nOther: overflow in doubling step when a doubled digit > 18 (i.e.\\ original digit == 9) and the code subtracts 10 instead of 9.\n\n\\end\x7bdocument\x7d"

/-- The markers of `isSpecialCreditCardAssignment`; content is special only
when all of them occur in it. -/
def specialMarkers : List Str :=
  [str "Week 5 – Random Testing", str "Bug 1", str "887976483324347",
   str "695746924442263", str "Bug 2", str "4045667666731919"]

def isSpecialCreditCardAssignment (content : Str) : Bool :=
  specialMarkers.all (fun m => containsSub content m)

/-- The thirteen patterns of `isLaTeXDocument`, already lower-case; each is
tested case-insensitively, embedded as a substring test on the lower-cased
content. -/
def latexPatterns : List Str :=
  [str "\\documentclass", str "\\begin\x7bdocument\x7d", str "\\section\x7b",
   str "\\subsection\x7b", str "\\chapter\x7b", str "\\usepackage",
   str "\\maketitle", str "\\begin\x7bitemize\x7d", str "\\begin\x7benumerate\x7d",
   str "\\begin\x7btable\x7d", str "\\begin\x7bfigure\x7d", str "\\textbf\x7b",
   str "\\textit\x7b"]

/-- `isLaTeXDocument` of the source.  The source counts pattern matches and
returns as soon as two have matched, which is the same as testing whether at
least two of the thirteen patterns match. -/
def isLaTeXDocument (content : Str) : Bool :=
  if (trim content).isEmpty then false
  else
    let latexCommandCount := content.count backslashChar
    if containsSub content (str "\\documentclass") && decide (3 < latexCommandCount) then true
    else if decide (2 ≤ (latexPatterns.filter
        (fun pat => containsSub (toLowerStr content) pat)).length) then true
    else decide (5 < latexCommandCount)

/-- Replacement used when the incoming content is empty or whitespace. -/
def effectiveContent (content : Str) : Str :=
  if (trim content).isEmpty then str "Generate a simple example document." else content

def IMPORTANT_INSTRUCTIONS : Str :=
  str "\n\nIMPORTANT INSTRUCTIONS:\n1. INCORPORATE THE USER CONTENT EXACTLY AS PROVIDED - DO NOT IGNORE OR REPLACE THE TEXT ABOVE.\n2. DO NOT ADD ANY MATH EQUATIONS UNLESS EXPLICITLY REQUESTED.\n3. DO NOT INSERT MATHEMATICAL EXPRESSIONS THAT ARE NOT LITERALLY PRESENT IN THE USER CONTENT.\n4. TREAT ALL USER TEXT LITERALLY, ESPECIALLY WHEN REGENERATING CONTENT."

/-- The `Options:` block appended for defined option flags. -/
def optionsText (opts : Options) : List Str :=
  (match opts.splitTables with
   | some b => [str "Split Tables: " ++ (if b then str "Yes" else str "No")]
   | none => []) ++
  (match opts.useMath with
   | some b => [str "Use Math Mode: " ++ (if b then str "Yes" else str "No")]
   | none => [])

/-- The prompt assembled in the ordinary case: document type, user content,
the `Options:` block when any option is defined, and the fixed instructions. -/
def assembledPrompt (content documentType : Str) (opts : Options) : Str :=
  let prompt := str "Document Type: " ++ documentType ++ str "\n\nUSER CONTENT:\n" ++
    content ++ str "\n"
  let ot := optionsText opts
  let prompt :=
    if ot.isEmpty then prompt
    else prompt ++ str "\nOptions:\n" ++ List.intercalate (str "\n") ot
  prompt ++ IMPORTANT_INSTRUCTIONS

/-- `preparePrompt` of the source: empty content is replaced by a default
request (the source rebinds `content` once; here `effectiveContent` is
applied at each use); the special credit-card assignment bypasses the
providers with a pre-formatted document; content detected as LaTeX is
replaced wholesale by the credit-card validation prompt; otherwise the
prompt is assembled from document type, user content, options and fixed
instructions. -/
def preparePrompt (content documentType : Str) (opts : Options) : PromptResult :=
  if isSpecialCreditCardAssignment (effectiveContent content) then
    .bypassed FORMATTED_CREDIT_CARD_LATEX
  else if isLaTeXDocument (effectiveContent content) then
    .prompt CREDIT_CARD_VALIDATION_PROMPT
  else
    .prompt (assembledPrompt (effectiveContent content) documentType opts)

/-! ### Provider catalog -/

/-- The model identifiers of each entry of the source's `providers` object,
in declaration order.  There is no `fireworks` entry in that object. -/
def modelsOf : Provider → List Str
  | .openai => [str "gpt-4o", str "gpt-3.5-turbo"]
  | .anthropic => [str "claude-3-7-sonnet-20250219", str "claude-3-haiku-20240307"]
  | .groq => [str "llama3-8b-8192", str "mixtral-8x7b-32768"]
  | .together => [str "mistral-7b-instruct"]
  | .huggingface => [str "HuggingFaceH4/zephyr-7b-beta"]
  | .fireworks => []
  | .openrouter => [str "google/gemini-pro", str "anthropic/claude-3-sonnet", str "openai/gpt-4"]

/-- Iteration order of the source's `providers` object (its six entries). -/
def providersOrder : List Provider :=
  [.openai, .anthropic, .groq, .together, .huggingface, .openrouter]

/-- `Object.keys(providers[p].models)[0]`: the provider's first configured
model; `none` for `fireworks`, whose missing `providers` entry would make
that member access throw. -/
def defaultModelOf (p : Provider) : Option Str := (modelsOf p).head?

/-- The provider owning a model name, per the `for ... in Object.entries`
search of `callProviderWithModel`. -/
def ownerOf (model : Str) : Option Provider :=
  providersOrder.find? (fun p => (modelsOf p).contains model)

/-- The static priority ordering of `determineProviderChain`. -/
def defaultChain : List Provider :=
  [.groq, .together, .huggingface, .anthropic, .openai, .openrouter]

/-- The `providerStatus` map as initialised at process start: availability is
credential presence, nothing is rate limited, no errors recorded. -/
def initProviderStatus (cred : Provider → Bool) : Provider → ProvState :=
  fun p => ⟨cred p, false, none⟩

def initSysState (cred : Provider → Bool) : SysState :=
  ⟨initProviderStatus cred, 0⟩

/-- `determineProviderChain` of the source: the default priority list
filtered by availability only. -/
def determineProviderChain (status : Provider → ProvState) : List Provider :=
  defaultChain.filter (fun p => (status p).available)

/-- Rate-limit detection of the orchestrator catch block: HTTP 429 or an
error message containing "rate limit". -/
def isRateLimitErr (e : ErrInfo) : Bool :=
  e.status == some 429 || containsSub e.msg (str "rate limit")

/-- The orchestrator's catch block: record the error on the failed
provider's status, mark it rate limited when detected, and schedule the
5-minute reset timer. -/
def recordFailure (p : Provider) (e : ErrInfo) (st : SysState) : SysState × List Timer :=
  let rl := isRateLimitErr e
  ({ st with status := fun q =>
      if q = p then
        { st.status p with
          lastError := some e,
          rateLimited := if rl then true else (st.status p).rateLimited }
      else st.status q },
   if rl then [⟨p, 5 * 60 * 1000⟩] else [])

/-- The body of a scheduled reset timer: set the provider's `rateLimited`
back to `false`. -/
def fireTimer (t : Timer) (st : SysState) : SysState :=
  { st with status := fun q =>
      if q = t.provider then { st.status q with rateLimited := false } else st.status q }

/-! ### Provider adapters -/

/-- The `TypeError` thrown when the chain reaches a provider without a
`providers` entry (member access on `undefined`); unreachable in the source
because the default chain lists only providers with entries. -/
def typeErrorNoAdapter : ErrInfo :=
  ⟨none, str "TypeError: Cannot read properties of undefined (reading \x27models\x27)"⟩

/-- Shape shared by the five non-Groq adapters: fail when the credential is
absent, otherwise issue the HTTP call and extract LaTeX from the returned
text; errors propagate. -/
def simpleAdapter (p : Provider) (notConfiguredMsg : Str) (env : Env)
    (model prompt : Str) (st : SysState) : AdapterOut :=
  if env.cred p then
    match env.call p model prompt with
    | .ok text _ => ⟨.ok (extractLatexFromResponse text), st, [⟨p, model, prompt⟩]⟩
    | .err e => ⟨.error e, st, [⟨p, model, prompt⟩]⟩
  else ⟨.error ⟨none, notConfiguredMsg⟩, st, []⟩

def MAX_TOKENS : Nat := 1000000

def groqBudgetErr : ErrInfo :=
  ⟨none, str "Groq spending limit exceeded. Using fallback providers."⟩

/-- The pre-flight token estimate of the Groq adapter: system-prompt and
user-prompt word counts at about 1.3 tokens per word plus the 4000 maximum
response tokens. -/
def groqEstimatedTokens (env : Env) (prompt : Str) : Nat :=
  systemPromptTokens env + estTokens13 (splitWsLen prompt) + 4000

/-- The tokens charged after a successful Groq call: the usage reported by
the backend, except that a missing report — or a reported 0, which is falsy
in the source's `||` — falls back to the pre-flight estimate. -/
def groqTokensUsed (env : Env) (prompt : Str) (usage : Option Nat) : Nat :=
  match usage with
  | some u => if u = 0 then groqEstimatedTokens env prompt else u
  | none => groqEstimatedTokens env prompt

/-- The Groq adapter with its token budget: reject over-budget requests
before the HTTP call; on success add the charged usage to the counter; on an
HTTP 429 error saturate the counter at the ceiling. -/
def groqAdapter (env : Env) (model prompt : Str) (st : SysState) : AdapterOut :=
  if env.cred .groq then
    if st.groqTokens + groqEstimatedTokens env prompt > MAX_TOKENS then
      ⟨.error groqBudgetErr, st, []⟩
    else
      match env.call .groq model prompt with
      | .ok text usage =>
        ⟨.ok (extractLatexFromResponse text),
         { st with groqTokens := st.groqTokens + groqTokensUsed env prompt usage },
         [⟨.groq, model, prompt⟩]⟩
      | .err e =>
        ⟨.error e,
         if e.status = some 429 then { st with groqTokens := MAX_TOKENS } else st,
         [⟨.groq, model, prompt⟩]⟩
  else ⟨.error ⟨none, str "Groq API not configured"⟩, st, []⟩

/-- Dispatch to the adapter of each provider; `fireworks` has no adapter in
the source, so an (unreachable) invocation can only throw. -/
def adapterGenerate (p : Provider) (env : Env) (model prompt : Str) (st : SysState) : AdapterOut :=
  match p with
  | .openai => simpleAdapter .openai (str "OpenAI API not configured") env model prompt st
  | .anthropic => simpleAdapter .anthropic (str "Anthropic API not configured") env model prompt st
  | .groq => groqAdapter env model prompt st
  | .together => simpleAdapter .together (str "TogetherAI API not configured") env model prompt st
  | .huggingface => simpleAdapter .huggingface (str "HuggingFace API not configured") env model prompt st
  | .openrouter => simpleAdapter .openrouter (str "OpenRouter API not configured") env model prompt st
  | .fireworks => ⟨.error typeErrorNoAdapter, st, []⟩

/-! ### Orchestrator -/

def modelNotFoundErr (model : Str) : ErrInfo :=
  ⟨none, str "Model \"" ++ model ++ str "\" not found in any provider"⟩

/-- `callProviderWithModel` of the source: find the provider owning the
model and invoke its adapter directly (no availability or rate-limit
check); throw when no provider owns the model. -/
def callProviderWithModel (env : Env) (model prompt : Str) (st : SysState) :
    AdapterOut × List Provider :=
  match ownerOf model with
  | some p => (adapterGenerate p env model prompt st, [p])
  | none => (⟨.error (modelNotFoundErr model), st, []⟩, [])

def allFailedMsg : Str :=
  str "All AI providers failed to generate LaTeX. Please try again later."

def allFailedResult : GenResult := ⟨false, none, some allFailedMsg⟩

/-- The provider fallback loop of `generateLatex`: skip providers that are
unavailable or rate limited, return the first success, and on failure record
the error (with rate-limit detection and reset scheduling) and continue. -/
def runChain (env : Env) (prompt : Str) : List Provider → SysState → RunOut
  | [], st => ⟨allFailedResult, st, [], [], []⟩
  | p :: rest, st =>
    if !(st.status p).available || (st.status p).rateLimited then
      runChain env prompt rest st
    else
      match defaultModelOf p with
      | none =>
        let upd := recordFailure p typeErrorNoAdapter st
        let out := runChain env prompt rest upd.1
        ⟨out.result, out.state, upd.2 ++ out.timers, p :: out.adapterCalls, out.netCalls⟩
      | some mdl =>
        match adapterGenerate p env mdl prompt st with
        | ⟨Except.ok latex, st2, nc⟩ => ⟨⟨true, some latex, none⟩, st2, [], [p], nc⟩
        | ⟨Except.error e, st2, nc⟩ =>
          let upd := recordFailure p e st2
          let out := runChain env prompt rest upd.1
          ⟨out.result, out.state, upd.2 ++ out.timers, p :: out.adapterCalls, nc ++ out.netCalls⟩

/-- `generateLatex` of the source: prepare the prompt (possibly bypassing
the providers entirely), try an explicit model override once, then walk the
availability-filtered chain; exhaustion yields the fixed structured failure
result. -/
def generateLatex (env : Env) (content documentType : Str) (opts : Options)
    (st : SysState) : RunOut :=
  match preparePrompt content documentType opts with
  | .bypassed direct => ⟨⟨true, some direct, none⟩, st, [], [], []⟩
  | .prompt prompt =>
    match opts.model with
    | some m =>
      match callProviderWithModel env m prompt st with
      | (⟨Except.ok latex, st2, nc⟩, ac) => ⟨⟨true, some latex, none⟩, st2, [], ac, nc⟩
      | (⟨Except.error _, st2, nc⟩, ac) =>
        let out := runChain env prompt (determineProviderChain st2.status) st2
        ⟨out.result, out.state, out.timers, ac ++ out.adapterCalls, nc ++ out.netCalls⟩
    | none => runChain env prompt (determineProviderChain st.status) st

/-! ### modifyLatex -/

def modifyAllFailedMsg : Str :=
  str "All available AI providers failed to process your request. Please try again later."

def omitModifyPrompt (latexContent notes : Str) : Str :=
  str "EXISTING LATEX CODE:\n```latex\n" ++ latexContent ++
  str "\n```\n\nREMOVE THE FOLLOWING CONTENT FROM THE LATEX CODE (make no other changes):\n" ++
  notes ++
  str "\n\nIMPORTANT NOTE ABOUT DATES: If this request is about removing a date and the document uses \\maketitle without a \\date\x7b\x7d command, you should add \\date\x7b\x7d before \\maketitle to explicitly set an empty date.\n\nReturn the complete modified LaTeX code with the specified content removed."

def instructModifyPrompt (latexContent notes : Str) : Str :=
  str "EXISTING LATEX CODE:\n```latex\n" ++ latexContent ++
  str "\n```\n\nMODIFY THE LATEX CODE ACCORDING TO THESE INSTRUCTIONS:\n" ++ notes ++
  str "\n\nReturn the complete modified LaTeX code with the requested changes applied."

/-- The fallback loop of `modifyLatex`: like `runChain` but the catch block
records nothing on the provider state, and a successful response is passed
through `extractLatexFromResponse` a second time. -/
def modifyChain (env : Env) (prompt : Str) : List Provider → SysState → RunOut
  | [], st => ⟨⟨false, none, some modifyAllFailedMsg⟩, st, [], [], []⟩
  | p :: rest, st =>
    if !(st.status p).available || (st.status p).rateLimited then
      modifyChain env prompt rest st
    else
      match defaultModelOf p with
      | none =>
        let out := modifyChain env prompt rest st
        ⟨out.result, out.state, out.timers, p :: out.adapterCalls, out.netCalls⟩
      | some mdl =>
        match adapterGenerate p env mdl prompt st with
        | ⟨Except.ok latex, st2, nc⟩ =>
          ⟨⟨true, some (extractLatexFromResponse latex), none⟩, st2, [], [p], nc⟩
        | ⟨Except.error _, st2, nc⟩ =>
          let out := modifyChain env prompt rest st2
          ⟨out.result, out.state, out.timers, p :: out.adapterCalls, nc ++ out.netCalls⟩

/-- `modifyLatex` of the source: a date-omission request against a document
using `\maketitle` with no explicit date is handled by a direct textual
insertion and returns without invoking any provider; otherwise a
modification prompt is built and the override-then-chain walk runs as in
`generateLatex` (without rate-limit bookkeeping). -/
def modifyLatex (env : Env) (latexContent notes : Str) (isOmit : Bool)
    (opts : Options) (st : SysState) : RunOut :=
  if isOmit &&
     (containsSub (toLowerStr notes) (str "date") ||
      containsSub (toLowerStr notes) (str "the date")) &&
     containsSub latexContent (str "\\maketitle") &&
     !containsSub latexContent (str "\\date\x7b") then
    ⟨⟨true, some (replaceFirst latexContent (str "\\maketitle")
        (str "\\date\x7b\x7d\n\\maketitle")), none⟩,
     st, [], [], []⟩
  else
    let prompt :=
      if isOmit then omitModifyPrompt latexContent notes
      else instructModifyPrompt latexContent notes
    match opts.model with
    | some m =>
      match callProviderWithModel env m prompt st with
      | (⟨Except.ok latex, st2, nc⟩, ac) =>
        ⟨⟨true, some (extractLatexFromResponse latex), none⟩, st2, [], ac, nc⟩
      | (⟨Except.error _, st2, nc⟩, ac) =>
        let out := modifyChain env prompt (determineProviderChain st2.status) st2
        ⟨out.result, out.state, out.timers, ac ++ out.adapterCalls, nc ++ out.netCalls⟩
    | none => modifyChain env prompt (determineProviderChain st.status) st

/-! ### Helper lemmas -/

theorem runChain_nil (env : Env) (prompt : Str) (st : SysState) :
    runChain env prompt [] st = ⟨allFailedResult, st, [], [], []⟩ := rfl

theorem runChain_cons_skip (env : Env) (prompt : Str) (p : Provider) (rest : List Provider)
    (st : SysState) (h : (!(st.status p).available || (st.status p).rateLimited) = true) :
    runChain env prompt (p :: rest) st = runChain env prompt rest st := by
  simp only [runChain, h, if_true]

theorem runChain_cons_none (env : Env) (prompt : Str) (p : Provider) (rest : List Provider)
    (st : SysState) (h : (!(st.status p).available || (st.status p).rateLimited) = false)
    (hdm : defaultModelOf p = none) :
    runChain env prompt (p :: rest) st =
      ⟨(runChain env prompt rest (recordFailure p typeErrorNoAdapter st).1).result,
       (runChain env prompt rest (recordFailure p typeErrorNoAdapter st).1).state,
       (recordFailure p typeErrorNoAdapter st).2 ++
         (runChain env prompt rest (recordFailure p typeErrorNoAdapter st).1).timers,
       p :: (runChain env prompt rest (recordFailure p typeErrorNoAdapter st).1).adapterCalls,
       (runChain env prompt rest (recordFailure p typeErrorNoAdapter st).1).netCalls⟩ := by
  simp only [runChain, h, Bool.false_eq_true, if_false, hdm]

theorem runChain_cons_ok (env : Env) (prompt : Str) (p : Provider) (rest : List Provider)
    (st : SysState) (mdl latex : Str) (st2 : SysState) (nc : List NetCall)
    (h : (!(st.status p).available || (st.status p).rateLimited) = false)
    (hdm : defaultModelOf p = some mdl)
    (hA : adapterGenerate p env mdl prompt st = ⟨Except.ok latex, st2, nc⟩) :
    runChain env prompt (p :: rest) st = ⟨⟨true, some latex, none⟩, st2, [], [p], nc⟩ := by
  simp only [runChain, h, Bool.false_eq_true, if_false, hdm, hA]

theorem runChain_cons_err (env : Env) (prompt : Str) (p : Provider) (rest : List Provider)
    (st : SysState) (mdl : Str) (e : ErrInfo) (st2 : SysState) (nc : List NetCall)
    (h : (!(st.status p).available || (st.status p).rateLimited) = false)
    (hdm : defaultModelOf p = some mdl)
    (hA : adapterGenerate p env mdl prompt st = ⟨Except.error e, st2, nc⟩) :
    runChain env prompt (p :: rest) st =
      ⟨(runChain env prompt rest (recordFailure p e st2).1).result,
       (runChain env prompt rest (recordFailure p e st2).1).state,
       (recordFailure p e st2).2 ++ (runChain env prompt rest (recordFailure p e st2).1).timers,
       p :: (runChain env prompt rest (recordFailure p e st2).1).adapterCalls,
       nc ++ (runChain env prompt rest (recordFailure p e st2).1).netCalls⟩ := by
  simp only [runChain, h, Bool.false_eq_true, if_false, hdm, hA]

theorem simpleAdapter_state (p : Provider) (msg : Str) (env : Env) (model prompt : Str)
    (st : SysState) : (simpleAdapter p msg env model prompt st).state = st := by
  unfold simpleAdapter
  by_cases h : env.cred p = true
  · rw [if_pos h]
    cases env.call p model prompt <;> rfl
  · rw [if_neg h]

theorem groqAdapter_status (env : Env) (model prompt : Str) (st : SysState) :
    (groqAdapter env model prompt st).state.status = st.status := by
  unfold groqAdapter
  by_cases h : env.cred Provider.groq = true
  · by_cases hb : st.groqTokens + groqEstimatedTokens env prompt > MAX_TOKENS
    · simp [h, hb]
    · cases hc : env.call Provider.groq model prompt with
      | ok text usage => simp [h, hb, hc]
      | err e => by_cases h4 : e.status = some 429 <;> simp [h, hb, hc, h4]
  · simp [h]

theorem adapterGenerate_status (p : Provider) (env : Env) (model prompt : Str) (st : SysState) :
    (adapterGenerate p env model prompt st).state.status = st.status := by
  cases p <;>
    simp only [adapterGenerate, simpleAdapter_state, groqAdapter_status]

theorem adapterGenerate_tokens_ne (p : Provider) (env : Env) (model prompt : Str) (st : SysState)
    (h : p ≠ Provider.groq) :
    (adapterGenerate p env model prompt st).state.groqTokens = st.groqTokens := by
  cases p <;> simp only [adapterGenerate, simpleAdapter_state] <;> first
    | rfl
    | exact absurd rfl h

theorem simpleAdapter_netCalls_prompt (p : Provider) (msg : Str) (env : Env)
    (model prompt : Str) (st : SysState) :
    ∀ nc ∈ (simpleAdapter p msg env model prompt st).netCalls, nc.prompt = prompt := by
  intro nc hnc
  unfold simpleAdapter at hnc
  by_cases h : env.cred p = true
  · rw [if_pos h] at hnc
    cases hc : env.call p model prompt <;> rw [hc] at hnc <;>
      simp only [List.mem_singleton] at hnc <;> subst hnc <;> rfl
  · rw [if_neg h] at hnc
    simp at hnc

theorem groqAdapter_netCalls_prompt (env : Env) (model prompt : Str) (st : SysState) :
    ∀ nc ∈ (groqAdapter env model prompt st).netCalls, nc.prompt = prompt := by
  intro nc hnc
  unfold groqAdapter at hnc
  by_cases h : env.cred Provider.groq = true
  · by_cases hb : st.groqTokens + groqEstimatedTokens env prompt > MAX_TOKENS
    · simp [h, hb] at hnc
    · cases hc : env.call Provider.groq model prompt with
      | ok text usage =>
        simp [h, hb, hc] at hnc
        rw [hnc]
      | err e =>
        simp [h, hb, hc] at hnc
        rw [hnc]
  · simp [h] at hnc

theorem adapterGenerate_netCalls_prompt (p : Provider) (env : Env) (model prompt : Str)
    (st : SysState) :
    ∀ nc ∈ (adapterGenerate p env model prompt st).netCalls, nc.prompt = prompt := by
  cases p with
  | openai => exact simpleAdapter_netCalls_prompt _ _ env model prompt st
  | anthropic => exact simpleAdapter_netCalls_prompt _ _ env model prompt st
  | groq => exact groqAdapter_netCalls_prompt env model prompt st
  | together => exact simpleAdapter_netCalls_prompt _ _ env model prompt st
  | huggingface => exact simpleAdapter_netCalls_prompt _ _ env model prompt st
  | openrouter => exact simpleAdapter_netCalls_prompt _ _ env model prompt st
  | fireworks =>
    intro nc hnc
    simp [adapterGenerate] at hnc

theorem recordFailure_status_ne (p : Provider) (e : ErrInfo) (st : SysState) (q : Provider)
    (h : q ≠ p) : (recordFailure p e st).1.status q = st.status q := by
  simp [recordFailure, h]

theorem recordFailure_groqTokens (p : Provider) (e : ErrInfo) (st : SysState) :
    (recordFailure p e st).1.groqTokens = st.groqTokens := rfl

theorem recordFailure_available (p : Provider) (e : ErrInfo) (st : SysState) (q : Provider) :
    ((recordFailure p e st).1.status q).available = (st.status q).available := by
  by_cases h : q = p <;> simp [recordFailure, h]

theorem recordFailure_rateLimited_mono (p : Provider) (e : ErrInfo) (st : SysState) (q : Provider)
    (h : (st.status q).rateLimited = true) :
    ((recordFailure p e st).1.status q).rateLimited = true := by
  by_cases hq : q = p
  · subst hq
    simp only [recordFailure]
    split <;> simp [h]
  · simp [recordFailure, hq, h]

theorem recordFailure_rateLimited_self (p : Provider) (e : ErrInfo) (st : SysState)
    (h : isRateLimitErr e = true) :
    ((recordFailure p e st).1.status p).rateLimited = true := by
  simp [recordFailure, h]

theorem recordFailure_timers (p : Provider) (e : ErrInfo) (st : SysState)
    (h : isRateLimitErr e = true) :
    (recordFailure p e st).2 = [⟨p, 300000⟩] := by
  simp [recordFailure, h]

theorem recordFailure_timers_delay (p : Provider) (e : ErrInfo) (st : SysState) :
    ∀ t ∈ (recordFailure p e st).2, t.delayMs = 300000 := by
  intro t ht
  unfold recordFailure at ht
  by_cases h : isRateLimitErr e = true
  · simp [h] at ht
    rw [ht]
  · simp [h] at ht

theorem runChain_status_frame (env : Env) (prompt : Str) :
    ∀ (l : List Provider) (st : SysState) (p : Provider),
      p ∉ (runChain env prompt l st).adapterCalls →
      (runChain env prompt l st).state.status p = st.status p := by
  intro l
  induction l with
  | nil => intro st p _; rfl
  | cons q rest ih =>
    intro st p hp
    cases hskip : (!(st.status q).available || (st.status q).rateLimited) with
    | true =>
      rw [runChain_cons_skip env prompt q rest st hskip] at hp ⊢
      exact ih st p hp
    | false =>
      cases hdm : defaultModelOf q with
      | none =>
        rw [runChain_cons_none env prompt q rest st hskip hdm] at hp ⊢
        simp only [List.mem_cons, not_or] at hp
        rw [ih _ p hp.2, recordFailure_status_ne q _ st p hp.1]
      | some mdl =>
        rcases hA : adapterGenerate q env mdl prompt st with ⟨outcome, st2, nc⟩
        cases outcome with
        | ok latex =>
          rw [runChain_cons_ok env prompt q rest st mdl latex st2 nc hskip hdm hA] at hp ⊢
          have h2 := adapterGenerate_status q env mdl prompt st
          rw [hA] at h2
          exact congrFun h2 p
        | error e =>
          rw [runChain_cons_err env prompt q rest st mdl e st2 nc hskip hdm hA] at hp ⊢
          simp only [List.mem_cons, not_or] at hp
          have h2 := adapterGenerate_status q env mdl prompt st
          rw [hA] at h2
          rw [ih _ p hp.2, recordFailure_status_ne q e st2 p hp.1, congrFun h2 p]

theorem runChain_tokens_frame (env : Env) (prompt : Str) :
    ∀ (l : List Provider) (st : SysState),
      Provider.groq ∉ (runChain env prompt l st).adapterCalls →
      (runChain env prompt l st).state.groqTokens = st.groqTokens := by
  intro l
  induction l with
  | nil => intro st _; rfl
  | cons q rest ih =>
    intro st hp
    cases hskip : (!(st.status q).available || (st.status q).rateLimited) with
    | true =>
      rw [runChain_cons_skip env prompt q rest st hskip] at hp ⊢
      exact ih st hp
    | false =>
      cases hdm : defaultModelOf q with
      | none =>
        rw [runChain_cons_none env prompt q rest st hskip hdm] at hp ⊢
        simp only [List.mem_cons, not_or] at hp
        rw [ih _ hp.2, recordFailure_groqTokens]
      | some mdl =>
        rcases hA : adapterGenerate q env mdl prompt st with ⟨outcome, st2, nc⟩
        cases outcome with
        | ok latex =>
          rw [runChain_cons_ok env prompt q rest st mdl latex st2 nc hskip hdm hA] at hp ⊢
          simp only [List.mem_singleton] at hp
          have h2 := adapterGenerate_tokens_ne q env mdl prompt st (Ne.symm hp)
          rw [hA] at h2
          exact h2
        | error e =>
          rw [runChain_cons_err env prompt q rest st mdl e st2 nc hskip hdm hA] at hp ⊢
          simp only [List.mem_cons, not_or] at hp
          have h2 := adapterGenerate_tokens_ne q env mdl prompt st (Ne.symm hp.1)
          rw [hA] at h2
          rw [ih _ hp.2, recordFailure_groqTokens, h2]

theorem runChain_rateLimited_skip (env : Env) (prompt : Str) :
    ∀ (l : List Provider) (st : SysState) (p : Provider),
      (st.status p).rateLimited = true →
      p ∉ (runChain env prompt l st).adapterCalls := by
  intro l
  induction l with
  | nil => intro st p _ h; simp [runChain] at h
  | cons q rest ih =>
    intro st p hrl
    cases hskip : (!(st.status q).available || (st.status q).rateLimited) with
    | true =>
      rw [runChain_cons_skip env prompt q rest st hskip]
      exact ih st p hrl
    | false =>
      have hq : q ≠ p := by
        intro heq
        rw [Bool.or_eq_false_iff] at hskip
        rw [heq, hrl] at hskip
        exact absurd hskip.2 (by decide)
      cases hdm : defaultModelOf q with
      | none =>
        rw [runChain_cons_none env prompt q rest st hskip hdm]
        simp only [List.mem_cons, not_or]
        exact ⟨fun h => hq h.symm,
          ih _ p (recordFailure_rateLimited_mono q typeErrorNoAdapter st p hrl)⟩
      | some mdl =>
        rcases hA : adapterGenerate q env mdl prompt st with ⟨outcome, st2, nc⟩
        cases outcome with
        | ok latex =>
          rw [runChain_cons_ok env prompt q rest st mdl latex st2 nc hskip hdm hA]
          simp only [List.mem_singleton]
          exact fun h => hq h.symm
        | error e =>
          rw [runChain_cons_err env prompt q rest st mdl e st2 nc hskip hdm hA]
          simp only [List.mem_cons, not_or]
          have h2 := adapterGenerate_status q env mdl prompt st
          rw [hA] at h2
          have hrl2 : (st2.status p).rateLimited = true := by
            rw [congrFun h2 p]; exact hrl
          exact ⟨fun h => hq h.symm,
            ih _ p (recordFailure_rateLimited_mono q e st2 p hrl2)⟩

theorem runChain_timers_delay (env : Env) (prompt : Str) :
    ∀ (l : List Provider) (st : SysState) (t : Timer),
      t ∈ (runChain env prompt l st).timers → t.delayMs = 300000 := by
  intro l
  induction l with
  | nil => intro st t ht; simp [runChain] at ht
  | cons q rest ih =>
    intro st t ht
    cases hskip : (!(st.status q).available || (st.status q).rateLimited) with
    | true =>
      rw [runChain_cons_skip env prompt q rest st hskip] at ht
      exact ih st t ht
    | false =>
      cases hdm : defaultModelOf q with
      | none =>
        rw [runChain_cons_none env prompt q rest st hskip hdm] at ht
        rcases List.mem_append.mp ht with h | h
        · exact recordFailure_timers_delay q _ st t h
        · exact ih _ t h
      | some mdl =>
        rcases hA : adapterGenerate q env mdl prompt st with ⟨outcome, st2, nc⟩
        cases outcome with
        | ok latex =>
          rw [runChain_cons_ok env prompt q rest st mdl latex st2 nc hskip hdm hA] at ht
          simp at ht
        | error e =>
          rw [runChain_cons_err env prompt q rest st mdl e st2 nc hskip hdm hA] at ht
          rcases List.mem_append.mp ht with h | h
          · exact recordFailure_timers_delay q e st2 t h
          · exact ih _ t h

theorem runChain_netCalls_prompt (env : Env) (prompt : Str) :
    ∀ (l : List Provider) (st : SysState) (nc : NetCall),
      nc ∈ (runChain env prompt l st).netCalls → nc.prompt = prompt := by
  intro l
  induction l with
  | nil => intro st nc h; simp [runChain] at h
  | cons q rest ih =>
    intro st nc h
    cases hskip : (!(st.status q).available || (st.status q).rateLimited) with
    | true =>
      rw [runChain_cons_skip env prompt q rest st hskip] at h
      exact ih st nc h
    | false =>
      cases hdm : defaultModelOf q with
      | none =>
        rw [runChain_cons_none env prompt q rest st hskip hdm] at h
        exact ih _ nc h
      | some mdl =>
        rcases hA : adapterGenerate q env mdl prompt st with ⟨outcome, st2, ncs⟩
        cases outcome with
        | ok latex =>
          rw [runChain_cons_ok env prompt q rest st mdl latex st2 ncs hskip hdm hA] at h
          have h2 := adapterGenerate_netCalls_prompt q env mdl prompt st
          rw [hA] at h2
          exact h2 nc h
        | error e =>
          rw [runChain_cons_err env prompt q rest st mdl e st2 ncs hskip hdm hA] at h
          rcases List.mem_append.mp h with h | h
          · have h2 := adapterGenerate_netCalls_prompt q env mdl prompt st
            rw [hA] at h2
            exact h2 nc h
          · exact ih _ nc h

theorem simpleAdapter_no_ok (p : Provider) (msg : Str) (env : Env) (model prompt : Str)
    (st : SysState)
    (hp : env.cred p = false ∨ ∀ m pr, (env.call p m pr).isOk = false) :
    ∀ latex st2 nc, simpleAdapter p msg env model prompt st ≠ ⟨Except.ok latex, st2, nc⟩ := by
  intro latex st2 nc heq
  unfold simpleAdapter at heq
  by_cases h : env.cred p = true
  · rw [if_pos h] at heq
    cases hc : env.call p model prompt with
    | ok text usage =>
      rcases hp with hp | hp
      · rw [hp] at h; cases h
      · have h2 := hp model prompt
        rw [hc] at h2
        simp [CallOutcome.isOk] at h2
    | err e =>
      rw [hc] at heq
      simp at heq
  · rw [if_neg h] at heq
    simp at heq

theorem groqAdapter_no_ok (env : Env) (model prompt : Str) (st : SysState)
    (hp : env.cred Provider.groq = false ∨
      ∀ m pr, (env.call Provider.groq m pr).isOk = false) :
    ∀ latex st2 nc, groqAdapter env model prompt st ≠ ⟨Except.ok latex, st2, nc⟩ := by
  intro latex st2 nc heq
  unfold groqAdapter at heq
  by_cases h : env.cred Provider.groq = true
  · by_cases hb : st.groqTokens + groqEstimatedTokens env prompt > MAX_TOKENS
    · simp [h, hb] at heq
    · cases hc : env.call Provider.groq model prompt with
      | ok text usage =>
        rcases hp with hp | hp
        · rw [hp] at h; cases h
        · have h2 := hp model prompt
          rw [hc] at h2
          simp [CallOutcome.isOk] at h2
      | err e => simp [h, hb, hc] at heq
  · simp [h] at heq

theorem adapterGenerate_no_ok (env : Env) (p : Provider)
    (hp : env.cred p = false ∨ ∀ m pr, (env.call p m pr).isOk = false)
    (model prompt : Str) (st : SysState) :
    ∀ latex st2 nc, adapterGenerate p env model prompt st ≠ ⟨Except.ok latex, st2, nc⟩ := by
  cases p with
  | openai => exact simpleAdapter_no_ok _ _ env model prompt st hp
  | anthropic => exact simpleAdapter_no_ok _ _ env model prompt st hp
  | groq => exact groqAdapter_no_ok env model prompt st hp
  | together => exact simpleAdapter_no_ok _ _ env model prompt st hp
  | huggingface => exact simpleAdapter_no_ok _ _ env model prompt st hp
  | openrouter => exact simpleAdapter_no_ok _ _ env model prompt st hp
  | fireworks =>
    intro latex st2 nc heq
    simp [adapterGenerate] at heq

theorem runChain_all_fail (env : Env) (prompt : Str)
    (hp : ∀ p, env.cred p = false ∨ ∀ m pr, (env.call p m pr).isOk = false) :
    ∀ (l : List Provider) (st : SysState), (runChain env prompt l st).result = allFailedResult := by
  intro l
  induction l with
  | nil => intro st; rfl
  | cons q rest ih =>
    intro st
    cases hskip : (!(st.status q).available || (st.status q).rateLimited) with
    | true => rw [runChain_cons_skip env prompt q rest st hskip]; exact ih st
    | false =>
      cases hdm : defaultModelOf q with
      | none => rw [runChain_cons_none env prompt q rest st hskip hdm]; exact ih _
      | some mdl =>
        rcases hA : adapterGenerate q env mdl prompt st with ⟨outcome, st2, nc⟩
        cases outcome with
        | ok latex =>
          exact absurd hA (adapterGenerate_no_ok env q (hp q) mdl prompt st latex st2 nc)
        | error e =>
          rw [runChain_cons_err env prompt q rest st mdl e st2 nc hskip hdm hA]
          exact ih _

theorem callProviderWithModel_status (env : Env) (m prompt : Str) (st : SysState) :
    (callProviderWithModel env m prompt st).1.state.status = st.status := by
  unfold callProviderWithModel
  cases ho : ownerOf m with
  | some p => exact adapterGenerate_status p env m prompt st
  | none => rfl

theorem callProviderWithModel_tokens (env : Env) (m prompt : Str) (st : SysState)
    (h : Provider.groq ∉ (callProviderWithModel env m prompt st).2) :
    (callProviderWithModel env m prompt st).1.state.groqTokens = st.groqTokens := by
  unfold callProviderWithModel at h ⊢
  cases ho : ownerOf m with
  | some p =>
    rw [ho] at h
    simp only [List.mem_singleton] at h
    exact adapterGenerate_tokens_ne p env m prompt st (Ne.symm h)
  | none => rfl

theorem callProviderWithModel_netCalls_prompt (env : Env) (m prompt : Str) (st : SysState) :
    ∀ nc ∈ (callProviderWithModel env m prompt st).1.netCalls, nc.prompt = prompt := by
  unfold callProviderWithModel
  cases ho : ownerOf m with
  | some p => exact adapterGenerate_netCalls_prompt p env m prompt st
  | none => intro nc hnc; simp at hnc

theorem callProviderWithModel_no_ok (env : Env)
    (hp : ∀ p, env.cred p = false ∨ ∀ m pr, (env.call p m pr).isOk = false)
    (m prompt : Str) (st : SysState) :
    ∀ latex st2 nc ac, callProviderWithModel env m prompt st ≠ (⟨Except.ok latex, st2, nc⟩, ac) := by
  intro latex st2 nc ac heq
  unfold callProviderWithModel at heq
  cases ho : ownerOf m with
  | some p =>
    rw [ho] at heq
    have h2 : adapterGenerate p env m prompt st = ⟨Except.ok latex, st2, nc⟩ :=
      congrArg Prod.fst heq
    exact adapterGenerate_no_ok env p (hp p) m prompt st latex st2 nc h2
  | none =>
    rw [ho] at heq
    have h2 : (⟨Except.error (modelNotFoundErr m), st, []⟩ : AdapterOut) =
        ⟨Except.ok latex, st2, nc⟩ := congrArg Prod.fst heq
    simp at h2

theorem preparePrompt_not_special (content documentType : Str) (opts : Options)
    (h : isSpecialCreditCardAssignment (effectiveContent content) = false) :
    ∃ pr, preparePrompt content documentType opts = .prompt pr := by
  unfold preparePrompt
  rw [h, if_neg (by decide : ¬ (false = true))]
  split
  · exact ⟨_, rfl⟩
  · exact ⟨_, rfl⟩

theorem isLaTeXDocument_trim_ne (c : Str) (h : isLaTeXDocument c = true) :
    (trim c).isEmpty = false := by
  cases hne : (trim c).isEmpty with
  | false => rfl
  | true =>
    unfold isLaTeXDocument at h
    rw [hne] at h
    simp at h

theorem findSub?_isPrefixOf (pat : Str) :
    ∀ (s : Str) (i : Nat), findSub? pat s = some i → pat.isPrefixOf (s.drop i) = true := by
  intro s
  induction s with
  | nil =>
    intro i h
    unfold findSub? at h
    by_cases hp : pat.isPrefixOf ([] : Str) = true
    · rw [if_pos hp] at h
      injection h with h0
      subst h0
      exact hp
    · rw [if_neg hp] at h
      cases h
  | cons c t ih =>
    intro i h
    unfold findSub? at h
    by_cases hp : pat.isPrefixOf (c :: t) = true
    · rw [if_pos hp] at h
      injection h with h0
      subst h0
      exact hp
    · rw [if_neg hp] at h
      cases hft : findSub? pat t with
      | none => rw [hft] at h; cases h
      | some j =>
        rw [hft] at h
        simp at h
        subst h
        exact ih j hft

theorem findSub?_drop_eq (pat s : Str) (i : Nat) (h : findSub? pat s = some i) :
    s.drop i = pat ++ s.drop (i + pat.length) := by
  have hp := findSub?_isPrefixOf pat s i h
  rw [List.isPrefixOf_iff_prefix] at hp
  obtain ⟨rest, hr⟩ := hp
  have hlen : s.drop (i + pat.length) = rest := by
    have h2 : (pat ++ rest).drop pat.length = rest := List.drop_left pat rest
    rw [hr, List.drop_drop] at h2
    exact h2
  rw [hlen, hr]

theorem replaceFirst_insert (s pat ins : Str) (i : Nat) (h : findSub? pat s = some i) :
    replaceFirst s pat (ins ++ pat) = s.take i ++ ins ++ s.drop i := by
  unfold replaceFirst
  rw [h, findSub?_drop_eq pat s i h]
  simp [List.append_assoc]

/-! ### Concrete environments and states used by witnesses and counterexamples -/

def envNoCreds : Env := ⟨fun _ => false, fun _ _ _ => .err ⟨none, str "boom"⟩, 40⟩

def envAllOk : Env := ⟨fun _ => true, fun _ _ _ => .ok (str "ok") none, 10⟩

def env429 : Env := ⟨fun _ => true, fun _ _ _ => .err ⟨some 429, str "too many"⟩, 10⟩

/-- A state in which every provider is available and exactly groq is rate
limited. -/
def stRL : SysState :=
  ⟨fun p => match p with
    | .groq => ⟨true, true, none⟩
    | _ => ⟨true, false, none⟩, 0⟩

/-- A content string containing all six markers of the special credit-card
assignment detector. -/
def specialContent : Str :=
  str "Week 5 – Random Testing Bug 1 887976483324347 695746924442263 Bug 2 4045667666731919"

def allRateLimited : Provider → ProvState := fun _ => ⟨true, true, none⟩

def mid429 : SysState := ⟨initProviderStatus env429.cred, MAX_TOKENS⟩

def budgetEnv : Env :=
  ⟨fun p => match p with | .groq => true | _ => false,
   fun _ _ _ => .err ⟨none, str "never"⟩, 0⟩

def budgetState : SysState := ⟨initProviderStatus budgetEnv.cred, 1000000⟩

def C6env : Env :=
  ⟨fun p => match p with | .together => true | _ => false,
   fun p _ _ => match p with
     | .together => .ok (str "RESULT") none
     | _ => .err ⟨none, str "boom"⟩, 25⟩

def C6opts : Options := ⟨some (str "no-such-model"), none, none⟩

def C6prompt : Str :=
  match preparePrompt (str "hello") (str "essay") C6opts with
  | .prompt p => p
  | .bypassed d => d

def c10content : Str :=
  str "\\documentclass\x7barticle\x7d\n\\begin\x7bdocument\x7d\nHello\n\\end\x7bdocument\x7d"

/-! ### Claim theorems -/

/-- C2: as stated, the claim fails: `determineProviderChain` filters the
priority list on `available` only and does not consult `rateLimited`; a
provider that is available but currently rate limited is returned.  (The
orchestrator loop, not the selector, skips rate-limited providers.)
Amended claim: the chain selector returns exactly the members of the
priority-ordered default list whose availability is true; it may include
rate-limited providers. -/
theorem chain_selector_availability_amended :
    ∀ (status : Provider → ProvState) (p : Provider),
      p ∈ determineProviderChain status ↔ p ∈ defaultChain ∧ (status p).available = true := by
  intro status p
  simp [determineProviderChain, List.mem_filter]

/-- C2 (counterexample): with every provider available and rate limited, the
selector still returns groq, whose `rateLimited` flag is true — contradicting
the claim that no returned provider has `rateLimited = true`. -/
theorem chain_selector_counterexample :
    Provider.groq ∈ determineProviderChain allRateLimited ∧
    (allRateLimited Provider.groq).rateLimited = true :=
  ⟨by decide, rfl⟩

/-- C3: as stated, the claim fails: when the content is the hard-coded
special credit-card assignment, `generateLatex` bypasses the providers and
returns success even though every provider (vacuously, with an empty chain)
fails.  Amended claim: for every call whose effective content is not the
special credit-card assignment and in which every provider either lacks its
credential or fails whenever actually called, `generateLatex` returns the
structured result with `success = false` and the fixed user-facing message,
and (being a total function of the embedding) never throws. -/
theorem generate_latex_total_exhaustion_amended :
    ∀ (env : Env) (content documentType : Str) (opts : Options) (st : SysState),
      isSpecialCreditCardAssignment (effectiveContent content) = false →
      (∀ p, env.cred p = false ∨ ∀ m pr, (env.call p m pr).isOk = false) →
      (generateLatex env content documentType opts st).result = allFailedResult := by
  intro env content documentType opts st hs hp
  obtain ⟨pr, hpr⟩ := preparePrompt_not_special content documentType opts hs
  cases hm : opts.model with
  | none =>
    simp only [generateLatex, hpr, hm]
    exact runChain_all_fail env pr hp _ st
  | some m =>
    rcases hc : callProviderWithModel env m pr st with ⟨⟨outcome, st2, nc⟩, ac⟩
    cases outcome with
    | ok latex => exact absurd hc (callProviderWithModel_no_ok env hp m pr st latex st2 nc ac)
    | error e =>
      simp only [generateLatex, hpr, hm, hc]
      exact runChain_all_fail env pr hp _ st2

/-- C3 (witness): with no credentials at all and ordinary content, the run
returns the fixed structured failure. -/
theorem generate_latex_total_exhaustion_witness :
    isSpecialCreditCardAssignment (effectiveContent (str "hello")) = false ∧
    (generateLatex envNoCreds (str "hello") (str "essay") noOptions
      (initSysState envNoCreds.cred)).result = allFailedResult :=
  ⟨by decide,
   generate_latex_total_exhaustion_amended envNoCreds (str "hello") (str "essay") noOptions
     (initSysState envNoCreds.cred) (by decide) (fun p => Or.inl rfl)⟩

/-- C3 (counterexample): with no credentials (the chain is empty, so every
provider in it trivially fails) but with the special credit-card content,
`generateLatex` returns success, not the claimed failure result. -/
theorem generate_latex_total_exhaustion_counterexample :
    determineProviderChain (initSysState envNoCreds.cred).status = [] ∧
    (generateLatex envNoCreds specialContent (str "assignment") noOptions
      (initSysState envNoCreds.cred)).result.success = true ∧
    (generateLatex envNoCreds specialContent (str "assignment") noOptions
      (initSysState envNoCreds.cred)).netCalls = [] :=
  ⟨by decide, by decide, by decide⟩

/-- C4: the budget-constrained Groq adapter rejects a call whose running
total plus estimated cost (ceil of 1.3 tokens per whitespace-split word of
the system prompt and of the user prompt, plus the 4000 maximum response
tokens) exceeds the 1,000,000-token ceiling: it throws the budget-exceeded
error before any network call (no `NetCall` is recorded) and leaves the
state, in particular the token counter, unchanged. -/
theorem groq_budget_preflight :
    ∀ (env : Env) (model prompt : Str) (st : SysState),
      env.cred Provider.groq = true →
      st.groqTokens + (estTokens13 env.sysPromptWords + estTokens13 (splitWsLen prompt) + 4000) >
        MAX_TOKENS →
      groqAdapter env model prompt st = ⟨Except.error groqBudgetErr, st, []⟩ := by
  intro env model prompt st hc hb
  have hb2 : st.groqTokens + groqEstimatedTokens env prompt > MAX_TOKENS := hb
  unfold groqAdapter
  rw [if_pos hc, if_pos hb2]

/-- C4 (witness): a concrete over-budget call is rejected with the counter
untouched and no network call. -/
theorem groq_budget_preflight_witness :
    budgetEnv.cred Provider.groq = true ∧
    budgetState.groqTokens +
      (estTokens13 budgetEnv.sysPromptWords + estTokens13 (splitWsLen (str "hi")) + 4000) >
      MAX_TOKENS ∧
    groqAdapter budgetEnv (str "llama3-8b-8192") (str "hi") budgetState =
      ⟨Except.error groqBudgetErr, budgetState, []⟩ :=
  ⟨rfl, by decide,
   groq_budget_preflight budgetEnv (str "llama3-8b-8192") (str "hi") budgetState rfl (by decide)⟩

/-- C5: as stated, the claim fails: a rate-limited provider is skipped by
the provider-chain walk, but a request carrying an explicit `options.model`
override for one of that provider's models calls `callProviderWithModel`,
which performs no rate-limit check, so the provider is not "skipped by all
requests" during the window.  Amended claim: on a chain failure with HTTP
429 or a message containing "rate limit" the provider's `rateLimited` flag
is set and a reset is scheduled; while the flag is set the chain walk of
every request skips the provider (an explicit model override may still
invoke it); every scheduled reset has the fixed 5-minute (300000 ms) delay;
and firing the reset sets the flag back to false. -/
theorem rate_limit_cooldown_amended :
    (∀ (env : Env) (prompt : Str) (rest : List Provider) (st : SysState) (p : Provider)
       (mdl : Str) (e : ErrInfo) (st2 : SysState) (nc : List NetCall),
      (!(st.status p).available || (st.status p).rateLimited) = false →
      defaultModelOf p = some mdl →
      adapterGenerate p env mdl prompt st = ⟨Except.error e, st2, nc⟩ →
      isRateLimitErr e = true →
      ((recordFailure p e st2).1.status p).rateLimited = true ∧
      (⟨p, 300000⟩ : Timer) ∈ (runChain env prompt (p :: rest) st).timers) ∧
    (∀ (env : Env) (prompt : Str) (l : List Provider) (st : SysState) (p : Provider),
      (st.status p).rateLimited = true → p ∉ (runChain env prompt l st).adapterCalls) ∧
    (∀ (env : Env) (prompt : Str) (l : List Provider) (st : SysState) (t : Timer),
      t ∈ (runChain env prompt l st).timers → t.delayMs = 300000) ∧
    (∀ (t : Timer) (st : SysState), ((fireTimer t st).status t.provider).rateLimited = false) := by
  refine ⟨?_, runChain_rateLimited_skip, runChain_timers_delay, ?_⟩
  · intro env prompt rest st p mdl e st2 nc hskip hdm hA hrl
    refine ⟨recordFailure_rateLimited_self p e st2 hrl, ?_⟩
    rw [runChain_cons_err env prompt p rest st mdl e st2 nc hskip hdm hA]
    simp only [List.mem_append]
    left
    rw [recordFailure_timers p e st2 hrl]
    exact List.mem_singleton.mpr rfl
  · intro t st
    simp [fireTimer]

set_option maxRecDepth 100000 in
/-- C5 (witness): a concrete 429 from groq marks it rate limited and puts a
5-minute reset timer in the run output. -/
theorem rate_limit_cooldown_witness :
    ((recordFailure Provider.groq ⟨some 429, str "too many"⟩ mid429).1.status
      Provider.groq).rateLimited = true ∧
    (⟨Provider.groq, 300000⟩ : Timer) ∈
      (runChain env429 (str "p") [Provider.groq] (initSysState env429.cred)).timers :=
  rate_limit_cooldown_amended.1 env429 (str "p") [] (initSysState env429.cred) Provider.groq
    (str "llama3-8b-8192") ⟨some 429, str "too many"⟩ mid429
    [⟨Provider.groq, str "llama3-8b-8192", str "p"⟩] (by decide) (by decide) rfl (by decide)

/-- C5 (counterexample): while groq is rate limited, a request with the
explicit model override `llama3-8b-8192` still invokes groq's adapter and
succeeds — the provider is not skipped by all requests during the window. -/
theorem rate_limit_cooldown_counterexample :
    (stRL.status Provider.groq).rateLimited = true ∧
    (generateLatex envAllOk (str "hello") (str "essay")
      ⟨some (str "llama3-8b-8192"), none, none⟩ stRL).adapterCalls = [Provider.groq] ∧
    (generateLatex envAllOk (str "hello") (str "essay")
      ⟨some (str "llama3-8b-8192"), none, none⟩ stRL).result.success = true :=
  ⟨rfl, by decide, by decide⟩

/-- C6: with an explicit model override, the orchestrator attempts that
model once via `callProviderWithModel`; on any failure (including an unknown
model) the run is exactly the override attempt followed by the ordinary
walk of the default provider chain from the post-override state, so the
call may still succeed through a chain provider (see the witness). -/
theorem model_override_fallthrough :
    ∀ (env : Env) (content documentType : Str) (opts : Options) (st : SysState)
      (m prompt : Str) (e : ErrInfo) (st2 : SysState) (nc : List NetCall) (ac : List Provider),
      opts.model = some m →
      preparePrompt content documentType opts = .prompt prompt →
      callProviderWithModel env m prompt st = (⟨Except.error e, st2, nc⟩, ac) →
      generateLatex env content documentType opts st =
        ⟨(runChain env prompt (determineProviderChain st2.status) st2).result,
         (runChain env prompt (determineProviderChain st2.status) st2).state,
         (runChain env prompt (determineProviderChain st2.status) st2).timers,
         ac ++ (runChain env prompt (determineProviderChain st2.status) st2).adapterCalls,
         nc ++ (runChain env prompt (determineProviderChain st2.status) st2).netCalls⟩ := by
  intro env content documentType opts st m prompt e st2 nc ac hm hpr hc
  simp only [generateLatex, hpr, hm, hc]

set_option maxRecDepth 100000 in
/-- C6 (witness): an override naming a model owned by no provider fails, the
run falls through to the chain, and succeeds through the together provider. -/
theorem model_override_fallthrough_witness :
    C6opts.model = some (str "no-such-model") ∧
    preparePrompt (str "hello") (str "essay") C6opts = .prompt C6prompt ∧
    (generateLatex C6env (str "hello") (str "essay") C6opts
      (initSysState C6env.cred)).result = ⟨true, some (str "RESULT"), none⟩ := by
  refine ⟨rfl, rfl, ?_⟩
  have h := model_override_fallthrough C6env (str "hello") (str "essay") C6opts
    (initSysState C6env.cred) (str "no-such-model") C6prompt
    (modelNotFoundErr (str "no-such-model")) (initSysState C6env.cred) [] []
    rfl rfl rfl
  rw [h]
  decide

/-- C7: as stated, the claim fails for fireworks: its credential toggles its
`providerStatus` entry, but the `providers` object has no fireworks entry
(no adapter, no models) and the default chain omits it, so no fallback chain
can ever invoke it.  Amended claim: the status map tracks all seven
providers with availability equal to credential presence (initialisation is
total — a missing credential never raises); the six providers of the
`providers` object (exactly those other than fireworks) have adapters and
are exactly the members of the default chain; fireworks never appears in a
selected chain. -/
theorem provider_integration_amended :
    (∀ (cred : Provider → Bool) (p : Provider),
      (initProviderStatus cred p).available = cred p ∧
      (initProviderStatus cred p).rateLimited = false) ∧
    (∀ p : Provider, p ∈ providersOrder ↔ p ≠ Provider.fireworks) ∧
    (∀ p : Provider, p ∈ defaultChain ↔ p ≠ Provider.fireworks) ∧
    (∀ status : Provider → ProvState, Provider.fireworks ∉ determineProviderChain status) := by
  refine ⟨fun cred p => ⟨rfl, rfl⟩, fun p => by cases p <;> decide,
    fun p => by cases p <;> decide, fun status h => ?_⟩
  exact absurd (List.mem_filter.mp h).1 (by decide)

/-- C7 (counterexample): with every credential present, fireworks is marked
available, yet it has no models, no `providers` entry, and is absent from
the selected chain — so no adapter for it can be invoked by the fallback
chain, contradicting the claim for the seventh provider. -/
theorem provider_integration_counterexample :
    (initProviderStatus (fun _ => true) Provider.fireworks).available = true ∧
    modelsOf Provider.fireworks = [] ∧
    Provider.fireworks ∉ providersOrder ∧
    Provider.fireworks ∉ determineProviderChain (initProviderStatus (fun _ => true)) :=
  ⟨rfl, rfl, by decide, by decide⟩

/-- C8: a `modifyLatex` call with `isOmit = true`, notes whose lower-cased
form contains "date", content containing `\maketitle` and not containing
`\date` with an opening brace, returns success with an empty `\date` command
and a newline inserted immediately before the first `\maketitle`, invoking
no provider adapter and issuing no network call. -/
theorem modify_latex_date_omission :
    ∀ (env : Env) (latexContent notes : Str) (opts : Options) (st : SysState) (i : Nat),
      containsSub (toLowerStr notes) (str "date") = true →
      findSub? (str "\\maketitle") latexContent = some i →
      containsSub latexContent (str "\\date\x7b") = false →
      modifyLatex env latexContent notes true opts st =
        ⟨⟨true, some (latexContent.take i ++ str "\\date\x7b\x7d\n" ++ latexContent.drop i), none⟩,
         st, [], [], []⟩ := by
  intro env latexContent notes opts st i h1 h2 h3
  have hmk : containsSub latexContent (str "\\maketitle") = true := by
    unfold containsSub
    rw [h2]
    rfl
  have hcond : (true && (containsSub (toLowerStr notes) (str "date") ||
      containsSub (toLowerStr notes) (str "the date")) &&
      containsSub latexContent (str "\\maketitle") &&
      !containsSub latexContent (str "\\date\x7b")) = true := by
    rw [h1, hmk, h3]
    rfl
  have hsplit : str "\\date\x7b\x7d\n\\maketitle" = str "\\date\x7b\x7d\n" ++ str "\\maketitle" := by
    decide
  unfold modifyLatex
  rw [if_pos hcond, hsplit,
    replaceFirst_insert latexContent (str "\\maketitle") (str "\\date\x7b\x7d\n") i h2]

/-- C8 (witness): a concrete date-omission request is answered by direct
insertion with no adapter invoked. -/
theorem modify_latex_date_omission_witness :
    containsSub (toLowerStr (str "Remove the Date please")) (str "date") = true ∧
    findSub? (str "\\maketitle") (str "\\maketitle Hello") = some 0 ∧
    containsSub (str "\\maketitle Hello") (str "\\date\x7b") = false ∧
    modifyLatex envAllOk (str "\\maketitle Hello") (str "Remove the Date please") true noOptions
      stRL =
      ⟨⟨true, some ((str "\\maketitle Hello").take 0 ++ str "\\date\x7b\x7d\n" ++
        (str "\\maketitle Hello").drop 0), none⟩, stRL, [], [], []⟩ :=
  ⟨by decide, by decide, by decide,
   modify_latex_date_omission envAllOk (str "\\maketitle Hello") (str "Remove the Date please")
     noOptions stRL 0 (by decide) (by decide) (by decide)⟩

/-- C9: a `generateLatex` run leaves the status entry of every provider
whose adapter it did not invoke unchanged, and leaves the Groq token counter
unchanged when the groq adapter was not invoked. -/
theorem provider_state_frame :
    (∀ (env : Env) (content documentType : Str) (opts : Options) (st : SysState) (p : Provider),
      p ∉ (generateLatex env content documentType opts st).adapterCalls →
      (generateLatex env content documentType opts st).state.status p = st.status p) ∧
    (∀ (env : Env) (content documentType : Str) (opts : Options) (st : SysState),
      Provider.groq ∉ (generateLatex env content documentType opts st).adapterCalls →
      (generateLatex env content documentType opts st).state.groqTokens = st.groqTokens) := by
  constructor
  · intro env content documentType opts st p hp
    cases hprep : preparePrompt content documentType opts with
    | bypassed d => simp only [generateLatex, hprep]
    | prompt pr =>
      cases hm : opts.model with
      | none =>
        simp only [generateLatex, hprep, hm] at hp ⊢
        exact runChain_status_frame env pr _ st p hp
      | some m =>
        rcases hc : callProviderWithModel env m pr st with ⟨⟨outcome, st2, nc⟩, ac⟩
        have h2 := callProviderWithModel_status env m pr st
        rw [hc] at h2
        cases outcome with
        | ok latex =>
          simp only [generateLatex, hprep, hm, hc]
          exact congrFun h2 p
        | error e =>
          simp only [generateLatex, hprep, hm, hc] at hp ⊢
          rw [List.mem_append] at hp
          push_neg at hp
          have h3 := runChain_status_frame env pr (determineProviderChain st2.status) st2 p hp.2
          rw [h3, congrFun h2 p]
  · intro env content documentType opts st hp
    cases hprep : preparePrompt content documentType opts with
    | bypassed d => simp only [generateLatex, hprep]
    | prompt pr =>
      cases hm : opts.model with
      | none =>
        simp only [generateLatex, hprep, hm] at hp ⊢
        exact runChain_tokens_frame env pr _ st hp
      | some m =>
        rcases hc : callProviderWithModel env m pr st with ⟨⟨outcome, st2, nc⟩, ac⟩
        cases outcome with
        | ok latex =>
          simp only [generateLatex, hprep, hm, hc] at hp ⊢
          have h2 := callProviderWithModel_tokens env m pr st (by rw [hc]; exact hp)
          rw [hc] at h2
          exact h2
        | error e =>
          simp only [generateLatex, hprep, hm, hc] at hp ⊢
          rw [List.mem_append] at hp
          push_neg at hp
          have h2 := callProviderWithModel_tokens env m pr st (by rw [hc]; exact hp.1)
          rw [hc] at h2
          have h3 := runChain_tokens_frame env pr (determineProviderChain st2.status) st2 hp.2
          rw [h3, h2]

/-- C9 (witness): a run that invoked no adapter leaves openai's status entry
untouched. -/
theorem provider_state_frame_witness :
    Provider.openai ∉ (generateLatex envNoCreds (str "hi") (str "essay") noOptions
      (initSysState envNoCreds.cred)).adapterCalls ∧
    (generateLatex envNoCreds (str "hi") (str "essay") noOptions
      (initSysState envNoCreds.cred)).state.status Provider.openai =
      (initSysState envNoCreds.cred).status Provider.openai :=
  ⟨by decide,
   provider_state_frame.1 envNoCreds (str "hi") (str "essay") noOptions
     (initSysState envNoCreds.cred) Provider.openai (by decide)⟩

/-- C10: if the content is classified as LaTeX by `isLaTeXDocument` and is
not the special credit-card assignment, `preparePrompt` discards it and
returns the fixed hard-coded credit-card validation prompt, and every
network call of the `generateLatex` run carries exactly that prompt — the
user's content never reaches any model. -/
theorem latex_input_credit_card_prompt :
    ∀ (env : Env) (content documentType : Str) (opts : Options) (st : SysState),
      isLaTeXDocument content = true →
      isSpecialCreditCardAssignment content = false →
      preparePrompt content documentType opts = .prompt CREDIT_CARD_VALIDATION_PROMPT ∧
      ∀ nc ∈ (generateLatex env content documentType opts st).netCalls,
        nc.prompt = CREDIT_CARD_VALIDATION_PROMPT := by
  intro env content documentType opts st hl hs
  have heff : effectiveContent content = content := by
    unfold effectiveContent
    rw [isLaTeXDocument_trim_ne content hl]
    simp
  have hpr : preparePrompt content documentType opts = .prompt CREDIT_CARD_VALIDATION_PROMPT := by
    unfold preparePrompt
    rw [heff, hs, hl]
    simp
  refine ⟨hpr, ?_⟩
  cases hm : opts.model with
  | none =>
    simp only [generateLatex, hpr, hm]
    exact runChain_netCalls_prompt env CREDIT_CARD_VALIDATION_PROMPT _ st
  | some m =>
    rcases hc : callProviderWithModel env m CREDIT_CARD_VALIDATION_PROMPT st with
      ⟨⟨outcome, st2, nc⟩, ac⟩
    have h2 := callProviderWithModel_netCalls_prompt env m CREDIT_CARD_VALIDATION_PROMPT st
    rw [hc] at h2
    cases outcome with
    | ok latex =>
      simp only [generateLatex, hpr, hm, hc]
      exact h2
    | error e =>
      simp only [generateLatex, hpr, hm, hc]
      intro x hx
      rcases List.mem_append.mp hx with hx | hx
      · exact h2 x hx
      · exact runChain_netCalls_prompt env CREDIT_CARD_VALIDATION_PROMPT _ st2 x hx

/-- C10 (witness): a concrete LaTeX document input is replaced by the
credit-card validation prompt for every outgoing call. -/
theorem latex_input_credit_card_prompt_witness :
    isLaTeXDocument c10content = true ∧
    (preparePrompt c10content (str "essay") noOptions = .prompt CREDIT_CARD_VALIDATION_PROMPT ∧
     ∀ nc ∈ (generateLatex envAllOk c10content (str "essay") noOptions
       (initSysState envAllOk.cred)).netCalls,
       nc.prompt = CREDIT_CARD_VALIDATION_PROMPT) :=
  ⟨by decide,
   latex_input_credit_card_prompt envAllOk c10content (str "essay") noOptions
     (initSysState envAllOk.cred) (by decide) (by decide)⟩

end AiProvider
